import Mathlib

/-!
Shallow embedding of the transcript lifecycle service
(`app/services/transcription_service.py`) of the transcribe-videos
repository, together with theorems settling the specification claims.

The external collaborators (ffmpeg extraction, whisper transcription,
ollama embedding, the chromadb collection backend and the filesystem)
are modelled by an `Env` of oracle outcomes: each field records how the
corresponding external call would behave during one service operation.
The service state `St` carries the saved upload files, the chromadb
"transcripts" collection (an insertion-ordered, key-unique association
list, matching chromadb's stable native ordering), and a trace of the
external calls the operation performed (so that "no pipeline step runs"
is directly statable).

Python's dynamic values are kept faithful: a transcript is
`Option String` because `__transcribe_audio` returns `str | None` and
the `None` is passed on to `__upsert_transcript` unchecked; Python
truthiness of a transcript (`if not transcript`) is `pyFalsy`, which is
true both for `None` and for the empty string.
-/

namespace TranscribeVideos

/-- Embedding vectors returned by the embedding service. -/
abbrev Embedding := List Int

/-- One record of the chromadb "transcripts" collection: the stored
document (the transcript text, possibly the Python `None`), its
embedding, and the metadata `video_path` / `model_size`. -/
structure Record where
  text : Option String
  embedding : Embedding
  video_path : String
  model_size : String
deriving DecidableEq, Repr

/-- The chromadb collection: insertion-ordered association list keyed by
transcript id, unique per key. -/
abbrev Store := List (String × Record)

/-- chromadb `collection.upsert` with a single id: replaces the record in
place when the id is present, otherwise appends it. -/
def chromaUpsert (store : Store) (id : String) (r : Record) : Store :=
  if (store.lookup id).isSome then
    store.map (fun p => if p.1 = id then (id, r) else p)
  else
    store ++ [(id, r)]

/-- chromadb `collection.delete` with a single id: removes the record. -/
def chromaDelete (store : Store) (id : String) : Store :=
  store.filter (fun p => p.1 ≠ id)

/-- External calls performed by a service operation, in order. -/
inductive Ev
  | loadModel (size : String)
  | extractAudio
  | transcribe
  | embedQuery
  | storeUpsert (id : String)
  | storeDelete (id : String)
  | fileSave (path : String)
  | fileDelete (path : String)
deriving DecidableEq, Repr

/-- Service state: saved upload files, the chromadb collection, and the
trace of external calls made so far. -/
structure St where
  files : List String
  store : Store
  trace : List Ev
deriving DecidableEq, Repr

/-- Oracle for the external collaborators during one service operation:
`saveOk` — writing the uploaded file succeeds; `modelLoadOk` —
`whisper.load_model` succeeds; `extractOk` — the ffmpeg extraction
(`__extract_audio`) succeeds; `transcribeResult` — what
`__transcribe_audio` returns (`none` models a caught transcription
exception); `embed t` — what `embed_query` returns on the transcript `t`
(`none` models the call raising, e.g. the embedding service being
unreachable); `upsertRaises` / `getRaises` / `listRaises` /
`deleteRaises` — the corresponding chromadb backend call raising. -/
structure Env where
  saveOk : Bool
  modelLoadOk : Bool
  extractOk : Bool
  transcribeResult : Option String
  embed : Option String → Option Embedding
  upsertRaises : Bool
  getRaises : Bool
  listRaises : Bool
  deleteRaises : Bool

/-- Python truthiness test `if not transcript` on a `str | None` value:
falsy exactly for `None` and for the empty string. -/
def pyFalsy : Option String → Bool
  | none => true
  | some t => t == ""

/-- Model of `__upsert_transcript`: embeds the transcript and upserts
document, embedding and metadata into the collection; any exception
(from `embed_query` or `collection.upsert`) is caught and reported by
returning `false`. Returns the possibly updated state and the success
flag. -/
def upsertTranscript (env : Env) (st : St) (transcript_id : String)
    (transcript : Option String) (video_path model_size : String) : St × Bool :=
  match env.embed transcript with
  | none => ({ st with trace := st.trace ++ [Ev.embedQuery] }, false)
  | some emb =>
    if env.upsertRaises then
      ({ st with trace := st.trace ++ [Ev.embedQuery, Ev.storeUpsert transcript_id] }, false)
    else
      ({ st with
          store := chromaUpsert st.store transcript_id
            { text := transcript, embedding := emb,
              video_path := video_path, model_size := model_size },
          trace := st.trace ++ [Ev.embedQuery, Ev.storeUpsert transcript_id] },
        true)

/-- Model of `__extract_and_transcribe_audio_and_save_transcript`: loads
the model, extracts audio (returning `none` on extraction failure),
transcribes, then calls `__upsert_transcript` with whatever the
transcription returned — the source does not check the transcription
result before upserting and discards the upsert's boolean result — and
returns the transcription result. A model-load exception is caught by
the outer handler and yields `none`. -/
def extractTranscribeSave (env : Env) (st : St)
    (transcript_id video_path model_size : String) : St × Option String :=
  if !env.modelLoadOk then
    ({ st with trace := st.trace ++ [Ev.loadModel model_size] }, none)
  else
    let st1 : St := { st with trace := st.trace ++ [Ev.loadModel model_size] }
    if !env.extractOk then
      ({ st1 with trace := st1.trace ++ [Ev.extractAudio] }, none)
    else
      let st2 : St := { st1 with trace := st1.trace ++ [Ev.extractAudio, Ev.transcribe] }
      let transcript := env.transcribeResult
      ((upsertTranscript env st2 transcript_id transcript video_path model_size).1,
        transcript)

/-- Result dictionary returned by `create_transcript`. -/
structure CreateResult where
  success : Bool
  video_path : String
  transcript : Option String
  transcript_id : Option String
  model_size : String
deriving DecidableEq, Repr

/-- Model of `create_transcript`. `transcript_id` stands for the freshly
generated uuid and `filename` for the uploaded file's original name; the
persisted path is the source's f-string `transcript_id ++ "_" ++ filename`
(the constant uploads-directory prefix is elided). On save failure the
failure dictionary is returned with no pipeline run; otherwise the
pipeline runs and, when its result is falsy (`None` or empty), the saved
file is deleted and the failure dictionary returned; otherwise the
success dictionary. -/
def createTranscript (env : Env) (st : St)
    (transcript_id filename model_size : String) : St × CreateResult :=
  let file_path := transcript_id ++ "_" ++ filename
  if !env.saveOk then
    ({ st with trace := st.trace ++ [Ev.fileSave file_path] },
      { success := false, video_path := file_path, transcript := none,
        transcript_id := none, model_size := model_size })
  else
    let st1 : St := { st with files := file_path :: st.files,
                              trace := st.trace ++ [Ev.fileSave file_path] }
    let run := extractTranscribeSave env st1 transcript_id file_path model_size
    if pyFalsy run.2 then
      ({ run.1 with files := run.1.files.filter (fun p => p ≠ file_path),
                    trace := run.1.trace ++ [Ev.fileDelete file_path] },
        { success := false, video_path := file_path, transcript := none,
          transcript_id := none, model_size := model_size })
    else
      (run.1,
        { success := true, video_path := file_path, transcript := run.2,
          transcript_id := some transcript_id, model_size := model_size })

/-- Result dictionary returned by `get_transcript` (the source's nested
`metadata` dictionary is flattened into the two metadata fields). -/
structure GetResult where
  transcript_id : String
  transcript : Option String
  video_path : String
  model_size : String
deriving DecidableEq, Repr

/-- Model of `get_transcript`: point lookup in the collection; a backend
exception is caught and `none` returned, exactly as for an absent id. -/
def getTranscript (env : Env) (store : Store) (transcript_id : String) :
    Option GetResult :=
  if env.getRaises then none
  else
    match store.lookup transcript_id with
    | none => none
    | some r =>
      some { transcript_id := transcript_id, transcript := r.text,
             video_path := r.video_path, model_size := r.model_size }

/-- Model of `list_transcripts`: chromadb `collection.get` with `limit`
and `offset` over the collection's native order; a backend exception is
caught and the empty list returned. -/
def listTranscripts (env : Env) (store : Store) (limit offset : Nat) :
    List GetResult :=
  if env.listRaises then []
  else
    ((store.drop offset).take limit).map (fun p =>
      { transcript_id := p.1, transcript := p.2.text,
        video_path := p.2.video_path, model_size := p.2.model_size })

/-- Result dictionary returned by `update_transcript` (the keys
`transcript_id` / `new_model_size` are only present on success, modelled
as `Option`). -/
structure UpdateResult where
  success : Bool
  message : String
  transcript_id : Option String
  new_model_size : Option String
deriving DecidableEq, Repr

/-- Model of `update_transcript`: not-found check, same-model-size check,
then the re-run pipeline on the record's stored video path; only a `None`
transcription result is reported as failure — the discarded upsert
result cannot influence the outcome. -/
def updateTranscript (env : Env) (st : St)
    (transcript_id model_size : String) : St × UpdateResult :=
  match getTranscript env st.store transcript_id with
  | none =>
    (st, { success := false, message := "Transcript not found",
           transcript_id := none, new_model_size := none })
  | some existing =>
    if existing.model_size = model_size then
      (st, { success := false, message := "Model size is already the same",
             transcript_id := none, new_model_size := none })
    else
      let run := extractTranscribeSave env st transcript_id existing.video_path model_size
      match run.2 with
      | none =>
        (run.1, { success := false,
                  message := "Failed to update transcript due to transcription error",
                  transcript_id := none, new_model_size := none })
      | some _ =>
        (run.1, { success := true, message := "Transcript updated successfully",
                  transcript_id := some transcript_id,
                  new_model_size := some model_size })

/-- Model of `delete_transcript`: checks existence through
`get_transcript`, then chromadb `collection.delete`; a backend exception
is caught and `false` returned, exactly as for an absent id. -/
def deleteTranscript (env : Env) (st : St) (transcript_id : String) : St × Bool :=
  match getTranscript env st.store transcript_id with
  | none => (st, false)
  | some _ =>
    if env.deleteRaises then (st, false)
    else
      ({ st with store := chromaDelete st.store transcript_id,
                 trace := st.trace ++ [Ev.storeDelete transcript_id] },
        true)

/-- The `_model_cache` dictionary: loaded model handles keyed by size
(handles are abstracted as naturals). -/
abbrev ModelCache := List (String × Nat)

/-- Model of `__get_model`: `load` models `whisper.load_model`. Returns
the new cache, the handle handed back to the caller, and whether a load
was performed by this call. -/
def getModel (load : String → Nat) (cache : ModelCache) (model_size : String) :
    ModelCache × Nat × Bool :=
  match cache.lookup model_size with
  | some m => (cache, m, false)
  | none => ((model_size, load model_size) :: cache, load model_size, true)

/-- An environment in which every external collaborator behaves: saving,
model loading and extraction succeed, transcription yields a fixed
non-empty text, embedding always succeeds, and no backend call raises. -/
def envOk : Env :=
  { saveOk := true, modelLoadOk := true, extractOk := true,
    transcribeResult := some "hello world", embed := fun _ => some [1, 2],
    upsertRaises := false, getRaises := false, listRaises := false,
    deleteRaises := false }

/-- An environment in which extraction and transcription succeed but the
embedding service is unreachable: `embed_query` raises on every input. -/
def envEmbedDown : Env :=
  { envOk with transcribeResult := some "new text", embed := fun _ => none }

/-- An environment in which the pipeline succeeds but the transcription
result is the empty string (e.g. a silent video). -/
def envEmptyText : Env :=
  { envOk with transcribeResult := some "" }

/-- An environment in which every chromadb backend call raises
(connectivity loss or corruption). -/
def envBackendDown : Env :=
  { envOk with upsertRaises := true, getRaises := true, listRaises := true,
               deleteRaises := true }

/-- A stored record used by the concrete scenarios. -/
def rec1 : Record :=
  { text := some "old text", embedding := [7],
    video_path := "id1_clip.mp4", model_size := "tiny" }

/-- A state holding one transcript `id1` produced with model size `tiny`
and its saved video file. -/
def st1 : St :=
  { files := ["id1_clip.mp4"], store := [("id1", rec1)], trace := [] }

/-- The empty service state. -/
def st0 : St := { files := [], store := [], trace := [] }

theorem lookup_cons {β : Type} (a k : String) (v : β) (t : List (String × β)) :
    ((k, v) :: t).lookup a = if a = k then some v else t.lookup a := by
  by_cases h : a = k
  · subst h
    simp [List.lookup]
  · have hb : (a == k) = false := beq_eq_false_iff_ne.mpr h
    simp [List.lookup, hb, h]

theorem lookup_chromaDelete (store : Store) (id : String) :
    (chromaDelete store id).lookup id = none := by
  induction store with
  | nil => rfl
  | cons p t ih =>
    rcases p with ⟨k, v⟩
    by_cases hk : k = id
    · simpa [chromaDelete, List.filter_cons, hk] using ih
    · have hstep : chromaDelete ((k, v) :: t) id = (k, v) :: chromaDelete t id := by
        simp [chromaDelete, List.filter_cons, hk]
      rw [hstep, lookup_cons, if_neg (fun he => hk he.symm)]
      exact ih

theorem lookup_map_replace (store : Store) (id : String) (r : Record) :
    (store.lookup id).isSome = true →
    (store.map (fun p => if p.1 = id then (id, r) else p)).lookup id = some r := by
  induction store with
  | nil => intro h; simp at h
  | cons p t ih =>
    intro h
    rcases p with ⟨k, v⟩
    by_cases hk : k = id
    · subst hk
      simp [lookup_cons]
    · rw [List.map_cons]
      have hkeep : (if (k, v).1 = id then (id, r) else (k, v)) = (k, v) := by simp [hk]
      rw [hkeep, lookup_cons, if_neg (fun he => hk he.symm)]
      rw [lookup_cons, if_neg (fun he => hk he.symm)] at h
      exact ih h

theorem lookup_append_self (store : Store) (id : String) (r : Record) :
    store.lookup id = none →
    (store ++ [(id, r)]).lookup id = some r := by
  induction store with
  | nil => intro _; simp [lookup_cons]
  | cons p t ih =>
    intro h
    rcases p with ⟨k, v⟩
    rw [lookup_cons] at h
    by_cases hk : id = k
    · rw [if_pos hk] at h
      exact absurd h (by simp)
    · rw [if_neg hk] at h
      rw [List.cons_append, lookup_cons, if_neg hk]
      exact ih h

theorem lookup_chromaUpsert (store : Store) (id : String) (r : Record) :
    (chromaUpsert store id r).lookup id = some r := by
  unfold chromaUpsert
  by_cases h : (store.lookup id).isSome
  · simp only [h, if_true]
    exact lookup_map_replace store id r h
  · simp only [h, if_false]
    refine lookup_append_self store id r ?_
    cases hh : store.lookup id with
    | none => rfl
    | some v => rw [hh] at h; simp at h

/-- C1: with a record stored at `id1` (model size `tiny`, text
`old text`), `update("id1", "base")` whose re-run pipeline extracts and
transcribes successfully but whose embedding step fails (the embedding
service is unreachable) returns `success = true` — not the failure
result the claim requires — because the `false` returned by
`__upsert_transcript` is discarded; the previously stored record does
remain unchanged. -/
theorem C1_embedding_failure_reports_success :
    (updateTranscript envEmbedDown st1 "id1" "base").2.success = true
    ∧ (updateTranscript envEmbedDown st1 "id1" "base").1.store = st1.store
    ∧ getTranscript envOk (updateTranscript envEmbedDown st1 "id1" "base").1.store "id1"
        = getTranscript envOk st1.store "id1" := by decide

/-- C2: a `create` call in which saving, extraction and transcription
succeed (text `new text`) but the embedding service is unreachable
returns `success = true` with a transcript id, even though the upsert
failed and no record was stored: the embedding failure is silently
absorbed instead of propagating as a pipeline failure. -/
theorem C2_create_embedding_failure_reports_success :
    (createTranscript envEmbedDown st0 "id2" "clip.mp4" "base").2.success = true
    ∧ (createTranscript envEmbedDown st0 "id2" "clip.mp4" "base").2.transcript_id = some "id2"
    ∧ (createTranscript envEmbedDown st0 "id2" "clip.mp4" "base").1.store = [] := by decide

/-- C3: a `create` call whose transcription returns the empty string is
reported as a failure and the saved video file is deleted, yet the
already-performed upsert leaves a record for the generated id in the
store: the failed creation leaves a partial store entry, and that record
exists although its owning video file is gone — the claimed existence
invariant does not hold. -/
theorem C3_failed_create_leaves_store_entry :
    (createTranscript envEmptyText st0 "id3" "clip.mp4" "base").2.success = false
    ∧ (createTranscript envEmptyText st0 "id3" "clip.mp4" "base").1.files = []
    ∧ (createTranscript envEmptyText st0 "id3" "clip.mp4" "base").1.store.lookup "id3"
        = some { text := some "", embedding := [1, 2],
                 video_path := "id3_clip.mp4", model_size := "base" } := by decide

/-- C5: a `create` call in which the file was saved and the embedding
pipeline step then fails returns `success = true` (not the required
`success = false` with nulled fields) and keeps the just-persisted video
file instead of rolling it back. -/
theorem C5_embedding_failure_skips_rollback :
    (createTranscript envEmbedDown st0 "id5" "clip.mp4" "base").2.success = true
    ∧ (createTranscript envEmbedDown st0 "id5" "clip.mp4" "base").1.files
        = ["id5_clip.mp4"] := by decide

/-- C4 counterexample: with `id1` stored at model size `tiny`,
`update("id1", "tiny")` does return a failure result with no pipeline
run, but its message is `Model size is already the same`, not the
claimed `model size already current`. -/
theorem C4_message_differs :
    (updateTranscript envOk st1 "id1" "tiny").2.success = false
    ∧ (updateTranscript envOk st1 "id1" "tiny").2.message
        = "Model size is already the same"
    ∧ (updateTranscript envOk st1 "id1" "tiny").2.message
        ≠ "model size already current" := by decide

/-- C4 amended: for every id whose stored record has `model_size` equal
to the requested size, `update(id, same_size)` returns a failure result
whose message is `Model size is already the same`, runs no pipeline step
(the trace is unchanged and the outcome is the same for every oracle),
and leaves the state unchanged — hence also on every repetition of the
call. -/
theorem C4_same_model_size_rejected (env : Env) (st : St) (id size : String)
    (r : Record) (hg : env.getRaises = false)
    (hr : st.store.lookup id = some r) (hs : r.model_size = size) :
    updateTranscript env st id size
      = (st, { success := false, message := "Model size is already the same",
               transcript_id := none, new_model_size := none }) := by
  simp [updateTranscript, getTranscript, hg, hr, hs]

theorem C4_same_model_size_rejected_witness :
    updateTranscript envOk st1 "id1" "tiny"
      = (st1, { success := false, message := "Model size is already the same",
                transcript_id := none, new_model_size := none }) :=
  C4_same_model_size_rejected envOk st1 "id1" "tiny" rec1 rfl (by decide) (by decide)

/-- C6 counterexample: with a record stored at `id1`, a chromadb backend
failure makes `get` return `none`, `delete` return `false` and `list`
return the empty list — exactly the outcomes produced for an absent id
(or empty store) on a healthy backend — so a backend failure is not
distinguishable from the not-found outcome. -/
theorem C6_backend_failure_equals_not_found :
    getTranscript envBackendDown st1.store "id1" = getTranscript envOk st0.store "id1"
    ∧ (deleteTranscript envBackendDown st1 "id1").2
        = (deleteTranscript envOk st0 "id1").2
    ∧ listTranscripts envBackendDown st1.store 10 0
        = listTranscripts envOk st0.store 10 0 := by decide

/-- C6 amended: errors raised by the storage backend are absorbed, not
distinguished: with a raising backend, `get` returns `none` for every id
(the absent-id outcome), `list` returns the empty list, and `delete`
returns `false` leaving the state unchanged (the absent-id outcome). -/
theorem C6_backend_failure_absorbed (env : Env) (st : St) (store : Store)
    (id : String) (L O : Nat)
    (hg : env.getRaises = true) (hl : env.listRaises = true) :
    getTranscript env store id = none
    ∧ listTranscripts env store L O = []
    ∧ deleteTranscript env st id = (st, false) := by
  refine ⟨?_, ?_, ?_⟩
  · simp [getTranscript, hg]
  · simp [listTranscripts, hl]
  · simp [deleteTranscript, getTranscript, hg]

theorem C6_backend_failure_absorbed_witness :
    getTranscript envBackendDown st1.store "id1" = none
    ∧ listTranscripts envBackendDown st1.store 10 0 = []
    ∧ deleteTranscript envBackendDown st1 "id1" = (st1, false) :=
  C6_backend_failure_absorbed envBackendDown st1 st1.store "id1" 10 0 rfl rfl

/-- C7: over a store of `N` records and a healthy backend,
`list(limit = L, offset = O)` returns exactly `max 0 (min L (N - O))`
records; in particular an offset at or past `N` yields the empty
sequence. -/
theorem C7_list_pagination (env : Env) (store : Store) (L O : Nat)
    (h : env.listRaises = false) :
    ((listTranscripts env store L O).length : Int)
      = max 0 (min (L : Int) ((store.length : Int) - (O : Int)))
    ∧ (store.length ≤ O → listTranscripts env store L O = []) := by
  constructor
  · simp [listTranscripts, h]
    omega
  · intro hO
    simp [listTranscripts, h, List.drop_eq_nil_of_le hO]

theorem C7_list_pagination_witness :
    ((listTranscripts envOk st1.store 5 0).length : Int)
      = max 0 (min (5 : Int) ((st1.store.length : Int) - ((0 : Nat) : Int)))
    ∧ (st1.store.length ≤ 0 → listTranscripts envOk st1.store 5 0 = []) :=
  C7_list_pagination envOk st1.store 5 0 rfl

/-- C8: on a healthy backend, `delete(id)` followed by `get(id)` with no
intervening mutation returns `none`; `delete(id)` returns `true` exactly
when a record existed at `id` (and it is then removed); and deleting
again — or deleting an absent id — returns `false`, not an error. -/
theorem C8_delete_then_get (env : Env) (st : St) (id : String)
    (hg : env.getRaises = false) (hd : env.deleteRaises = false) :
    (deleteTranscript env st id).1.store.lookup id = none
    ∧ getTranscript env (deleteTranscript env st id).1.store id = none
    ∧ ((deleteTranscript env st id).2 = true ↔ (st.store.lookup id).isSome = true)
    ∧ (deleteTranscript env (deleteTranscript env st id).1 id).2 = false := by
  cases hlk : st.store.lookup id with
  | none =>
    have hget : getTranscript env st.store id = none := by
      simp [getTranscript, hg, hlk]
    have hdel : deleteTranscript env st id = (st, false) := by
      simp [deleteTranscript, hget]
    refine ⟨?_, ?_, ?_, ?_⟩ <;> simp [hdel, hlk, hget]
  | some r =>
    have hget : getTranscript env st.store id
        = some { transcript_id := id, transcript := r.text,
                 video_path := r.video_path, model_size := r.model_size } := by
      simp [getTranscript, hg, hlk]
    have hdel : deleteTranscript env st id
        = ({ st with store := chromaDelete st.store id,
                     trace := st.trace ++ [Ev.storeDelete id] }, true) := by
      simp [deleteTranscript, hget, hd]
    refine ⟨?_, ?_, ?_, ?_⟩
    · rw [hdel]
      exact lookup_chromaDelete st.store id
    · rw [hdel]
      simp [getTranscript, hg, lookup_chromaDelete]
    · rw [hdel]
      simp [hlk]
    · rw [hdel]
      simp [deleteTranscript, getTranscript, hg, lookup_chromaDelete]

theorem C8_delete_then_get_witness :
    (deleteTranscript envOk st1 "id1").1.store.lookup "id1" = none
    ∧ getTranscript envOk (deleteTranscript envOk st1 "id1").1.store "id1" = none
    ∧ ((deleteTranscript envOk st1 "id1").2 = true
        ↔ (st1.store.lookup "id1").isSome = true)
    ∧ (deleteTranscript envOk (deleteTranscript envOk st1 "id1").1 "id1").2 = false :=
  C8_delete_then_get envOk st1 "id1" rfl rfl

/-- C9: the first `__get_model` call for a size not yet cached performs a
load and stores the handle under that size; a call for a size already
cached returns the cached handle, performs no load, and leaves the cache
unchanged; and no call ever evicts or replaces an existing cache
entry. -/
theorem C9_model_cache (load : String → Nat) (cache : ModelCache) (size : String) :
    (cache.lookup size = none →
       getModel load cache size = ((size, load size) :: cache, load size, true)
       ∧ (getModel load cache size).1.lookup size = some (load size))
    ∧ (∀ m, cache.lookup size = some m → getModel load cache size = (cache, m, false))
    ∧ (∀ s m, cache.lookup s = some m →
        (getModel load cache size).1.lookup s = some m) := by
  refine ⟨?_, ?_, ?_⟩
  · intro h
    constructor
    · simp [getModel, h]
    · simp [getModel, h, lookup_cons]
  · intro m hm
    simp [getModel, hm]
  · intro s m hm
    cases hc : cache.lookup size with
    | some m' => simp [getModel, hc, hm]
    | none =>
      have hs : s ≠ size := by
        intro he
        rw [he, hc] at hm
        exact Option.noConfusion hm
      simp [getModel, hc, lookup_cons, hs, hm]

theorem C9_model_cache_witness :
    getModel (fun _ => 5) [("tiny", 5)] "tiny" = ([("tiny", 5)], 5, false) :=
  (C9_model_cache (fun _ => 5) [("tiny", 5)] "tiny").2.1 5 (by decide)

/-- C10: a `create` call in which saving, model loading and extraction
succeed, the transcription returns the empty string, and embedding the
empty string succeeds, returns `success = false` with `transcript` and
`transcript_id` null and deletes the persisted video file — yet the
already-performed upsert leaves a record for the generated id (with the
empty text and its embedding) in the store. -/
theorem C10_empty_transcript_create (env : Env) (st : St)
    (tid filename size : String) (v : Embedding)
    (hsave : env.saveOk = true) (hmodel : env.modelLoadOk = true)
    (hex : env.extractOk = true) (htr : env.transcribeResult = some "")
    (hemb : env.embed (some "") = some v) (hup : env.upsertRaises = false) :
    (createTranscript env st tid filename size).2.success = false
    ∧ (createTranscript env st tid filename size).2.transcript = none
    ∧ (createTranscript env st tid filename size).2.transcript_id = none
    ∧ (tid ++ "_" ++ filename) ∉ (createTranscript env st tid filename size).1.files
    ∧ (createTranscript env st tid filename size).1.store.lookup tid
        = some { text := some "", embedding := v,
                 video_path := tid ++ "_" ++ filename, model_size := size } := by
  simp [createTranscript, extractTranscribeSave, upsertTranscript, pyFalsy,
    hsave, hmodel, hex, htr, hemb, hup, lookup_chromaUpsert, List.mem_filter]

theorem C10_empty_transcript_create_witness :
    (createTranscript envEmptyText st0 "id10" "clip.mp4" "base").2.success = false
    ∧ (createTranscript envEmptyText st0 "id10" "clip.mp4" "base").2.transcript = none
    ∧ (createTranscript envEmptyText st0 "id10" "clip.mp4" "base").2.transcript_id = none
    ∧ ("id10" ++ "_" ++ "clip.mp4")
        ∉ (createTranscript envEmptyText st0 "id10" "clip.mp4" "base").1.files
    ∧ (createTranscript envEmptyText st0 "id10" "clip.mp4" "base").1.store.lookup "id10"
        = some { text := some "", embedding := [1, 2],
                 video_path := "id10" ++ "_" ++ "clip.mp4", model_size := "base" } :=
  C10_empty_transcript_create envEmptyText st0 "id10" "clip.mp4" "base" [1, 2]
    rfl rfl rfl rfl rfl rfl

end TranscribeVideos
